import Mathlib

/-!
Shallow embedding of the automaxprocs mount-point core.

The repository source under `src/internal/runtime/runtime.go` contains the
`runtime` package const block (the CPU-quota / total-memory status constants)
together with the test file of the `cgroups` package.  The implementations of
`NewMountPointFromLine` and `MountPoint.Translate` themselves are not part of
the available source, so those two operations are modelled from the spec
(sections 4.1 and 4.2); the const block is embedded directly from the source.

Strings are handled through their underlying character lists so that every
operation is a structural recursion the kernel can evaluate.
-/

set_option autoImplicit false

/-! ### Character-list string utilities -/

/-- Prepends a character onto the first chunk of a chunk list. -/
def consHead (c : Char) : List (List Char) → List (List Char)
  | [] => [[c]]
  | h :: t => (c :: h) :: t

/-- Splits a character list on a separator character.  Mirrors Go
`strings.Split`: the result never has zero elements, and splitting the empty
string yields one empty chunk. -/
def strSplitOn (sep : Char) : List Char → List (List Char)
  | [] => [[]]
  | c :: rest =>
    if c = sep then [] :: strSplitOn sep rest
    else consHead c (strSplitOn sep rest)

/-- Joins chunks with a separator character; the inverse of `strSplitOn`. -/
def strIntercalate (sep : Char) : List (List Char) → List Char
  | [] => []
  | [x] => x
  | x :: y :: t => x ++ sep :: strIntercalate sep (y :: t)

/-- Accumulates a run of base-10 digits; fails on any non-digit character. -/
def parseDigitsAux : List Char → Nat → Option Nat
  | [], acc => some acc
  | c :: rest, acc =>
    if c.isDigit then parseDigitsAux rest (acc * 10 + (c.toNat - '0'.toNat))
    else none

/-- Parses a base-10 integer with an optional sign, as Go `strconv.Atoi`
does; fails on the empty string, a bare sign, or any non-digit character. -/
def parseBase10 : List Char → Option Int
  | [] => none
  | '-' :: rest =>
    if rest = [] then none
    else (parseDigitsAux rest 0).map (fun n => -(n : Int))
  | '+' :: rest =>
    if rest = [] then none
    else (parseDigitsAux rest 0).map (fun n => (n : Int))
  | cs => (parseDigitsAux cs 0).map (fun n => (n : Int))

/-! ### The runtime status constants (from src/internal/runtime/runtime.go) -/

/-- CPUQuotaStatus presents the status of how CPU quota is used. -/
abbrev CPUQuotaStatus := Int

/-- TotalMemoryStatus presents the status of how total memory quota is used. -/
abbrev TotalMemoryStatus := Int

/-- The single const block of runtime.go lists its const specs in this
order; Go assigns each spec the `iota` value equal to its index within the
block, and `iota` keeps counting across the blank line inside the block. -/
def runtimeConstBlock : List String :=
  ["CPUQuotaUndefined", "CPUQuotaUsed", "CPUQuotaMinUsed",
   "TotalMemoryUndefined", "TotalMemoryUsed"]

/-- Value a named const spec receives from `iota` in the runtime.go block. -/
def iotaOf (name : String) : Int :=
  (runtimeConstBlock.findIdx (fun s => decide (s = name)) : Nat)

/-- CPUQuotaUndefined is returned when CPU quota is undefined. -/
def CPUQuotaUndefined : CPUQuotaStatus := iotaOf "CPUQuotaUndefined"

/-- CPUQuotaUsed is returned when a valid CPU quota can be used. -/
def CPUQuotaUsed : CPUQuotaStatus := iotaOf "CPUQuotaUsed"

/-- CPUQuotaMinUsed is returned when CPU quota is smaller than the min value. -/
def CPUQuotaMinUsed : CPUQuotaStatus := iotaOf "CPUQuotaMinUsed"

/-- TotalMemoryUndefined is returned when total memory is undefined. -/
def TotalMemoryUndefined : TotalMemoryStatus := iotaOf "TotalMemoryUndefined"

/-- TotalMemoryUsed is returned when a valid total memory quota can be used. -/
def TotalMemoryUsed : TotalMemoryStatus := iotaOf "TotalMemoryUsed"

/-! ### The MountPoint record and error taxonomy -/

/-- MountPoint is the data structure for one line of `/proc/$PID/mountinfo`. -/
structure MountPoint where
  MountID : Int
  ParentID : Int
  DeviceID : String
  Root : String
  MountPoint : String
  Options : List String
  OptionalFields : List String
  FSType : String
  MountSource : String
  SuperOptions : List String
deriving DecidableEq

/-- Errors of the mountinfo line parser: the structural format error carrying
the offending line verbatim, and the distinct integer-field error carrying
the token that failed to parse as a base-10 integer. -/
inductive ParseError where
  | mountPointFormatInvalidError (line : String)
  | numError (field : String)
deriving DecidableEq

/-- Errors of the path translator: the not-absolute rejection carrying the
path, and the not-exposed rejection carrying mount point, root and path. -/
inductive TranslateError where
  | pathNotAbsoluteError (path : String)
  | pathNotExposedFromMountPointError (mountPoint root path : String)
deriving DecidableEq

/-! ### The mountinfo line parser (modelled from the spec, section 4.1) -/

/-- Whitespace tokens of a mountinfo line (fields separated by single
spaces). -/
def lineTokens (line : String) : List (List Char) := strSplitOn ' ' line.data

/-- Number of times `-` occurs as its own token in the line. -/
def dashCount (line : String) : Nat :=
  ((lineTokens line).filter (fun t => decide (t = ['-']))).length

/-- Tokens before the `-` separator: mountID, parentID, deviceID, root,
mountPoint, options, then zero or more optional fields. -/
def preFields (line : String) : List (List Char) :=
  (lineTokens line).takeWhile (fun t => decide (t ≠ ['-']))

/-- Tokens after the `-` separator: fsType, mountSource, then the tokens of
the super-options remainder. -/
def postFields (line : String) : List (List Char) :=
  ((lineTokens line).dropWhile (fun t => decide (t ≠ ['-']))).tail

/-- The verbatim remainder of the line after fsType and mountSource: the raw
super-options segment, with any spaces it contains preserved. -/
def superRaw (line : String) : List Char :=
  strIntercalate ' ' ((postFields line).drop 2)

/-- Modelled from the spec: the implementation of `NewMountPointFromLine` is
not under src (only its tests are).  Per section 4.1: the `-` separator must
occur exactly once as its own token; the pre segment needs at least the six
fixed fields (mountID, parentID, deviceID, root, mountPoint, options), the
rest being the optional fields; the post segment needs fsType, mountSource
and a non-empty super-options remainder, the remainder being recovered
verbatim and split only on commas; any structural violation yields the
format-invalid error carrying the line, and a mountID or parentID token that
is not a base-10 integer yields the distinct integer error. -/
def NewMountPointFromLine (line : String) : Except ParseError MountPoint :=
  if dashCount line ≠ 1 then .error (.mountPointFormatInvalidError line)
  else if (preFields line).length < 6 then .error (.mountPointFormatInvalidError line)
  else if (postFields line).length < 2 then .error (.mountPointFormatInvalidError line)
  else if superRaw line = [] then .error (.mountPointFormatInvalidError line)
  else if parseBase10 ((preFields line).getD 0 []) = none then
    .error (.numError (String.mk ((preFields line).getD 0 [])))
  else if parseBase10 ((preFields line).getD 1 []) = none then
    .error (.numError (String.mk ((preFields line).getD 1 [])))
  else
        .ok
          { MountID := (parseBase10 ((preFields line).getD 0 [])).getD 0
            ParentID := (parseBase10 ((preFields line).getD 1 [])).getD 0
            DeviceID := String.mk ((preFields line).getD 2 [])
            Root := String.mk ((preFields line).getD 3 [])
            MountPoint := String.mk ((preFields line).getD 4 [])
            Options := (strSplitOn ',' ((preFields line).getD 5 [])).map String.mk
            OptionalFields := ((preFields line).drop 6).map String.mk
            FSType := String.mk ((postFields line).getD 0 [])
            MountSource := String.mk ((postFields line).getD 1 [])
            SuperOptions := (strSplitOn ',' (superRaw line)).map String.mk }

/-! ### The path translator (modelled from the spec, section 4.2) -/

/-- Tests whether a path starts with the separator `/`. -/
def isAbs : List Char → Bool
  | '/' :: _ => true
  | _ => false

/-- Path components: split on `/` and drop empty chunks, so leading,
trailing and doubled separators do not produce components. -/
def pathComponents (p : List Char) : List (List Char) :=
  (strSplitOn '/' p).filter (fun c => decide (c ≠ []))

/-- Resolves `..` components against an accumulator stack of the components
already seen (reversed); a `..` at the top of the filesystem stays there, as
`/..` denotes `/`. -/
def resolveDotDot : List (List Char) → List (List Char) → List (List Char)
  | acc, [] => acc.reverse
  | acc, c :: rest =>
    if c = ['.', '.'] then resolveDotDot acc.tail rest
    else resolveDotDot (c :: acc) rest

/-- Components of a path after resolving its `..` components. -/
def resolvedComponents (p : List Char) : List (List Char) :=
  resolveDotDot [] (pathComponents p)

/-- Component-wise prefix test on component lists. -/
def compIsPre : List (List Char) → List (List Char) → Bool
  | [], _ => true
  | _ :: _, [] => false
  | a :: as, b :: bs => if a = b then compIsPre as bs else false

/-- Removes every trailing `/` of a path. -/
def dropTrailingSlashes (s : List Char) : List Char :=
  (s.reverse.dropWhile (fun c => decide (c = '/'))).reverse

/-- Modelled from the spec: the implementation of `MountPoint.Translate` is
not under src (only its tests are).  Per section 4.2: the input must be
absolute or the not-absolute error is returned; the root's components must
be a component-wise prefix of the input's components after `..` resolution,
or the not-exposed error carrying mount point, root and path is returned; on
success the portion of the path beyond the root is appended to the mount
point with exactly one separator, and a path equal to the root (with or
without a trailing slash) returns the mount point unchanged. -/
def Translate (mp : MountPoint) (path : String) :
    Except TranslateError String :=
  if isAbs path.data = false then .error (.pathNotAbsoluteError path)
  else if compIsPre (pathComponents mp.Root.data) (resolvedComponents path.data)
      = false then
    .error (.pathNotExposedFromMountPointError mp.MountPoint mp.Root path)
  else if (resolvedComponents path.data).drop (pathComponents mp.Root.data).length
      = [] then
    .ok mp.MountPoint
  else
    .ok (String.mk (dropTrailingSlashes mp.MountPoint.data ++ '/' ::
      strIntercalate '/'
        ((resolvedComponents path.data).drop (pathComponents mp.Root.data).length)))

/-! ### Helper lemmas about the string utilities -/

theorem consHead_ne_nil (c : Char) (l : List (List Char)) :
    consHead c l ≠ [] := by
  cases l <;> simp [consHead]

theorem strSplitOn_ne_nil (sep : Char) (s : List Char) : strSplitOn sep s ≠ [] := by
  cases s with
  | nil => simp [strSplitOn]
  | cons c rest =>
    simp only [strSplitOn]
    split
    · simp
    · exact consHead_ne_nil c (strSplitOn sep rest)

theorem strIntercalate_cons_cons (sep c : Char) (h : List Char)
    (t : List (List Char)) :
    strIntercalate sep ((c :: h) :: t) = c :: strIntercalate sep (h :: t) := by
  cases t <;> rfl

theorem strIntercalate_nil_cons (sep : Char) (l : List (List Char))
    (hl : l ≠ []) :
    strIntercalate sep ([] :: l) = sep :: strIntercalate sep l := by
  cases l with
  | nil => exact absurd rfl hl
  | cons h t => rfl

theorem strIntercalate_strSplitOn (sep : Char) (s : List Char) :
    strIntercalate sep (strSplitOn sep s) = s := by
  induction s with
  | nil => rfl
  | cons c rest ih =>
    simp only [strSplitOn]
    by_cases hc : c = sep
    · subst hc
      rw [if_pos rfl, strIntercalate_nil_cons c _ (strSplitOn_ne_nil c rest), ih]
    · rw [if_neg hc]
      rcases hsplit : strSplitOn sep rest with _ | ⟨h, t⟩
      · exact absurd hsplit (strSplitOn_ne_nil sep rest)
      · rw [hsplit] at ih
        simp only [consHead, strIntercalate_cons_cons, ih]

theorem sep_not_mem_strSplitOn (sep : Char) (s : List Char) :
    ∀ x ∈ strSplitOn sep s, sep ∉ x := by
  induction s with
  | nil =>
    intro x hx
    simp [strSplitOn] at hx
    simp [hx]
  | cons c rest ih =>
    intro x hx
    simp only [strSplitOn] at hx
    by_cases hc : c = sep
    · subst hc
      rw [if_pos rfl, List.mem_cons] at hx
      rcases hx with hx | hx
      · simp [hx]
      · exact ih x hx
    · rw [if_neg hc] at hx
      rcases hsplit : strSplitOn sep rest with _ | ⟨h, t⟩
      · exact absurd hsplit (strSplitOn_ne_nil sep rest)
      · rw [hsplit] at hx
        simp only [consHead] at hx
        rw [List.mem_cons] at hx
        rcases hx with hx | hx
        · subst hx
          intro hmem
          rw [List.mem_cons] at hmem
          rcases hmem with hmem | hmem
          · exact hc hmem.symm
          · exact ih h (by rw [hsplit]; exact List.mem_cons_self h t) hmem
        · exact ih x (by rw [hsplit]; exact List.mem_cons_of_mem h hx)

/-! ### Helper lemmas about component prefixes -/

theorem compIsPre_append (a t : List (List Char)) :
    compIsPre a (a ++ t) = true := by
  induction a with
  | nil => rfl
  | cons x xs ih => simp [compIsPre, ih]

theorem length_le_of_compIsPre (a b : List (List Char))
    (h : compIsPre a b = true) : a.length ≤ b.length := by
  induction a generalizing b with
  | nil => simp
  | cons x xs ih =>
    cases b with
    | nil => simp [compIsPre] at h
    | cons y ys =>
      simp only [compIsPre] at h
      split at h
      · simpa using ih ys h
      · exact absurd h (by simp)

/-- Shared core of the not-exposed rejections: an absolute path whose
resolved components do not extend the root's components is refused with the
not-exposed error carrying mount point, root and path. -/
theorem translate_not_exposed (mp : MountPoint) (path : String)
    (habs : isAbs path.data = true)
    (hpre : compIsPre (pathComponents mp.Root.data)
      (resolvedComponents path.data) = false) :
    Translate mp path = .error
      (.pathNotExposedFromMountPointError mp.MountPoint mp.Root path) := by
  unfold Translate
  rw [if_neg (by simp [habs]), if_pos hpre]

/-! ### Concrete record used by the translator witnesses (the cgroup mount of
the repository's tests) -/

def cgroupCPUMount : MountPoint :=
  { MountID := 31
    ParentID := 23
    DeviceID := "0:24"
    Root := "/docker/0123456789abcdef"
    MountPoint := "/sys/fs/cgroup/cpu"
    Options := ["rw", "nosuid", "nodev", "noexec", "relatime"]
    OptionalFields := ["shared:1"]
    FSType := "cgroup"
    MountSource := "cgroup"
    SuperOptions := ["rw", "cpu"] }

/-! ### The translator claims -/

/-- C1: for every MountPoint record and every absolute input path that is not
a true path-component descendant of (nor exactly equal to) the record's Root
— component-wise, so a sibling that merely shares a textual prefix with Root
is not a descendant — Translate fails with the path-not-exposed error
carrying the record's mount point, its root, and the offending path. -/
theorem C1_translate_rejects_non_descendant (mp : MountPoint) (path : String)
    (habs : isAbs path.data = true)
    (hnd : compIsPre (pathComponents mp.Root.data)
      (resolvedComponents path.data) = false) :
    Translate mp path = .error
      (.pathNotExposedFromMountPointError mp.MountPoint mp.Root path) :=
  translate_not_exposed mp path habs hnd

/-- Witness for C1 at the prefix-confusion sibling of the tests: the path
shares a textual prefix with the root but is not a component descendant, and
translation fails with the fully populated path-not-exposed error. -/
theorem C1_witness :
    isAbs ("/docker/0123456789abcdef-let-me-hack-this-path" : String).data = true ∧
    compIsPre (pathComponents (("/docker/0123456789abcdef" : String)).data)
      (resolvedComponents
        (("/docker/0123456789abcdef-let-me-hack-this-path" : String)).data) = false ∧
    Translate cgroupCPUMount "/docker/0123456789abcdef-let-me-hack-this-path" =
      .error (.pathNotExposedFromMountPointError "/sys/fs/cgroup/cpu"
        "/docker/0123456789abcdef"
        "/docker/0123456789abcdef-let-me-hack-this-path") :=
  ⟨rfl, rfl,
    C1_translate_rejects_non_descendant cgroupCPUMount
      "/docker/0123456789abcdef-let-me-hack-this-path" rfl rfl⟩

/-- C2: for every MountPoint record and every absolute path whose resolved
components extend the root's components by `rest`, Translate succeeds; the
result is the record's MountPoint with the portion of the path beyond Root
appended after exactly one separator, and is exactly the record's MountPoint
when the path equals Root (`rest = []`, which also covers a trailing slash
on the path, since components ignore trailing separators). -/
theorem C2_translate_descendant_success (mp : MountPoint) (path : String)
    (rest : List (List Char))
    (habs : isAbs path.data = true)
    (hres : resolvedComponents path.data = pathComponents mp.Root.data ++ rest) :
    Translate mp path = .ok
      (if rest = [] then mp.MountPoint
       else String.mk (dropTrailingSlashes mp.MountPoint.data ++ '/' ::
         strIntercalate '/' rest)) := by
  unfold Translate
  rw [if_neg (by simp [habs]), hres, compIsPre_append, List.drop_left]
  rw [if_neg (by simp)]
  split_ifs <;> rfl

/-- Witness for C2 at the three translation-success cases of the tests:
the root itself, the root with a trailing slash, and a true descendant. -/
theorem C2_witness :
    Translate cgroupCPUMount "/docker/0123456789abcdef" =
      .ok "/sys/fs/cgroup/cpu" ∧
    Translate cgroupCPUMount "/docker/0123456789abcdef/" =
      .ok "/sys/fs/cgroup/cpu" ∧
    Translate cgroupCPUMount "/docker/0123456789abcdef/large/cpu.cfs_quota_us" =
      .ok "/sys/fs/cgroup/cpu/large/cpu.cfs_quota_us" :=
  ⟨(C2_translate_descendant_success cgroupCPUMount
      "/docker/0123456789abcdef" [] rfl rfl).trans rfl,
   (C2_translate_descendant_success cgroupCPUMount
      "/docker/0123456789abcdef/" [] rfl rfl).trans rfl,
   (C2_translate_descendant_success cgroupCPUMount
      "/docker/0123456789abcdef/large/cpu.cfs_quota_us"
      (pathComponents ("large/cpu.cfs_quota_us" : String).data) rfl rfl).trans rfl⟩

/-- C5: for every MountPoint record and every absolute input path containing
`..` components whose resolution lands strictly above the record's Root,
Translate fails with the same path-not-exposed error as any other
non-descendant, so nothing above the exposed subtree is reachable. -/
theorem C5_translate_rejects_dotdot_escape (mp : MountPoint) (path : String)
    (habs : isAbs path.data = true)
    (hdots : ['.', '.'] ∈ pathComponents path.data)
    (habove : compIsPre (resolvedComponents path.data)
      (pathComponents mp.Root.data) = true)
    (hlen : (resolvedComponents path.data).length
      < (pathComponents mp.Root.data).length) :
    Translate mp path = .error
      (.pathNotExposedFromMountPointError mp.MountPoint mp.Root path) := by
  cases hcp : compIsPre (pathComponents mp.Root.data) (resolvedComponents path.data) with
  | false => exact translate_not_exposed mp path habs hcp
  | true => exact absurd (length_le_of_compIsPre _ _ hcp) (by omega)

/-- Witness for C5: a path that climbs out of the root with two `..`
components resolves to the filesystem top, strictly above the root, and is
refused with the path-not-exposed error. -/
theorem C5_witness :
    isAbs ("/docker/0123456789abcdef/../.." : String).data = true ∧
    ['.', '.'] ∈ pathComponents ("/docker/0123456789abcdef/../.." : String).data ∧
    resolvedComponents ("/docker/0123456789abcdef/../.." : String).data = [] ∧
    Translate cgroupCPUMount "/docker/0123456789abcdef/../.." =
      .error (.pathNotExposedFromMountPointError "/sys/fs/cgroup/cpu"
        "/docker/0123456789abcdef" "/docker/0123456789abcdef/../..") :=
  ⟨rfl, by decide, rfl,
    C5_translate_rejects_dotdot_escape cgroupCPUMount
      "/docker/0123456789abcdef/../.." rfl (by decide) rfl (by decide)⟩

/-- C6: every input path that does not start with `/` is rejected by
Translate with the path-not-absolute error regardless of the record's
contents, and that error differs from the path-not-exposed error the same
record would produce. -/
theorem C6_translate_rejects_relative (mp : MountPoint) (path : String)
    (hrel : isAbs path.data = false) :
    Translate mp path = .error (.pathNotAbsoluteError path) ∧
      TranslateError.pathNotAbsoluteError path ≠
        TranslateError.pathNotExposedFromMountPointError
          mp.MountPoint mp.Root path := by
  constructor
  · unfold Translate
    rw [if_pos hrel]
  · intro h
    exact TranslateError.noConfusion h

/-- Witness for C6 at the relative path of the tests. -/
theorem C6_witness :
    Translate cgroupCPUMount "docker" =
      .error (.pathNotAbsoluteError "docker") ∧
      TranslateError.pathNotAbsoluteError "docker" ≠
        TranslateError.pathNotExposedFromMountPointError
          "/sys/fs/cgroup/cpu" "/docker/0123456789abcdef" "docker" :=
  C6_translate_rejects_relative cgroupCPUMount "docker" rfl

/-! ### The runtime const-block claim -/

/-- C10: because the CPUQuotaStatus and TotalMemoryStatus constants share one
const block with a continuing iota, TotalMemoryUndefined is 3 and
TotalMemoryUsed is 4, so a zero-valued TotalMemoryStatus differs from
TotalMemoryUndefined while a zero-valued CPUQuotaStatus equals
CPUQuotaUndefined. -/
theorem C10_shared_iota_constants :
    TotalMemoryUndefined = 3 ∧ TotalMemoryUsed = 4 ∧
    (0 : TotalMemoryStatus) ≠ TotalMemoryUndefined ∧
    (0 : CPUQuotaStatus) = CPUQuotaUndefined :=
  ⟨by decide, by decide, by decide, by decide⟩

/-! ### The parser claims -/

/-- C3: every mountinfo line whose trailing super-options segment is empty
after splitting is rejected with the line-format-invalid structural error
carrying the line, never accepted with an empty (or single-empty-string)
SuperOptions sequence. -/
theorem C3_parse_empty_superoptions_invalid (line : String)
    (h : superRaw line = []) :
    NewMountPointFromLine line = .error (.mountPointFormatInvalidError line) := by
  unfold NewMountPointFromLine
  split_ifs with h1 h2 h3 h4 <;> first | rfl | exact absurd h h4

/-- Witness for C3 at a line whose super-options segment is missing
entirely, so the trailing segment splits to nothing. -/
theorem C3_witness :
    superRaw "1 0 252:0 / / rw - ext4 src" = [] ∧
    NewMountPointFromLine "1 0 252:0 / / rw - ext4 src" =
      .error (.mountPointFormatInvalidError "1 0 252:0 / / rw - ext4 src") :=
  ⟨rfl, C3_parse_empty_superoptions_invalid "1 0 252:0 / / rw - ext4 src" rfl⟩

/-- C8: every line that does not carry the `-` separator exactly once as its
own token with at least six fields before it and fsType, mountSource and a
non-empty super-options remainder after it fails with the
line-format-invalid error carrying the original line text verbatim. -/
theorem C8_parse_structural_invalid (line : String)
    (h : dashCount line ≠ 1 ∨ (preFields line).length < 6 ∨
      (postFields line).length < 2 ∨ superRaw line = []) :
    NewMountPointFromLine line = .error (.mountPointFormatInvalidError line) := by
  unfold NewMountPointFromLine
  split_ifs with h1 h2 h3 h4 h5 h6 <;>
    first
      | rfl
      | (rcases h with h | h | h | h
         · exact absurd h h1
         · exact absurd h h2
         · exact absurd h h3
         · exact absurd h h4)

/-- Witness for C8 at the structurally broken line of the tests, which has
no separator token at all. -/
theorem C8_witness :
    (dashCount "random line" ≠ 1 ∨ (preFields "random line").length < 6 ∨
      (postFields "random line").length < 2 ∨ superRaw "random line" = []) ∧
    NewMountPointFromLine "random line" =
      .error (.mountPointFormatInvalidError "random line") :=
  ⟨Or.inl (by decide),
    C8_parse_structural_invalid "random line" (Or.inl (by decide))⟩

/-- Token reported by the integer-field error: the mountID token when that
is the one failing to parse, otherwise the parentID token. -/
def intErrTok (line : String) : String :=
  if parseBase10 ((preFields line).getD 0 []) = none
  then String.mk ((preFields line).getD 0 [])
  else String.mk ((preFields line).getD 1 [])

/-- C7: every structurally well-formed line whose mountID or parentID token
is not a valid base-10 integer fails with the integer-field-invalid error,
which is a different condition from the line-format-invalid error. -/
theorem C7_parse_integer_invalid (line : String)
    (h1 : dashCount line = 1)
    (h2 : ¬ (preFields line).length < 6)
    (h3 : ¬ (postFields line).length < 2)
    (h4 : superRaw line ≠ [])
    (h5 : parseBase10 ((preFields line).getD 0 []) = none ∨
      parseBase10 ((preFields line).getD 1 []) = none) :
    NewMountPointFromLine line = .error (.numError (intErrTok line)) ∧
      ParseError.numError (intErrTok line) ≠
        ParseError.mountPointFormatInvalidError line := by
  constructor
  · unfold NewMountPointFromLine
    rw [if_neg (by simp [h1]), if_neg h2, if_neg h3, if_neg h4]
    rcases h5 with h5 | h5
    · rw [if_pos h5]
      unfold intErrTok
      rw [if_pos h5]
    · by_cases h6 : parseBase10 ((preFields line).getD 0 []) = none
      · rw [if_pos h6]
        unfold intErrTok
        rw [if_pos h6]
      · rw [if_neg h6, if_pos h5]
        unfold intErrTok
        rw [if_neg h6]
  · intro hcontra
    exact ParseError.noConfusion hcontra

/-- Witness for C7 at the two integer-strictness lines of the spec: the
invalid mountID and the invalid parentID each produce the integer error
carrying the offending token. -/
theorem C7_witness :
    NewMountPointFromLine "invalidMountID 0 252:0 / / rw - ext4 src opts" =
      .error (.numError "invalidMountID") ∧
    NewMountPointFromLine "1 invalidParentID 252:0 / / rw - ext4 src opts" =
      .error (.numError "invalidParentID") :=
  ⟨(C7_parse_integer_invalid "invalidMountID 0 252:0 / / rw - ext4 src opts"
      rfl (by decide) (by decide) (by decide) (Or.inl rfl)).1,
   (C7_parse_integer_invalid "1 invalidParentID 252:0 / / rw - ext4 src opts"
      rfl (by decide) (by decide) (by decide) (Or.inr rfl)).1⟩

/-- C9: every syntactically valid line parses to a record whose
OptionalFields are exactly the tokens between the options field and the `-`
separator, in original order; their number is the pre-segment length minus
the six fixed fields, and the sequence is the empty list (never an absent
value) when there are none. -/
theorem C9_parse_optional_fields_shape (line : String)
    (h1 : dashCount line = 1)
    (h2 : ¬ (preFields line).length < 6)
    (h3 : ¬ (postFields line).length < 2)
    (h4 : superRaw line ≠ [])
    (h5 : parseBase10 ((preFields line).getD 0 []) ≠ none)
    (h6 : parseBase10 ((preFields line).getD 1 []) ≠ none) :
    (NewMountPointFromLine line).map MountPoint.OptionalFields =
      .ok (((preFields line).drop 6).map String.mk) ∧
    (((preFields line).drop 6).map String.mk).length
      = (preFields line).length - 6 ∧
    ((preFields line).length = 6 →
      ((preFields line).drop 6).map String.mk = []) := by
  refine ⟨?_, ?_, ?_⟩
  · unfold NewMountPointFromLine
    rw [if_neg (by simp [h1]), if_neg h2, if_neg h3, if_neg h4,
      if_neg h5, if_neg h6]
    rfl
  · simp
  · intro hlen
    have hnil : (preFields line).drop 6 = [] :=
      List.drop_eq_nil_of_le (by omega)
    rw [hnil]
    rfl

/-- Witness for C9 at the cgroup line of the tests (one optional field,
`shared:1`) and at the root line (zero optional fields, empty sequence). -/
theorem C9_witness :
    (NewMountPointFromLine "31 23 0:24 /docker /sys/fs/cgroup/cpu rw,nosuid,nodev,noexec,relatime shared:1 - cgroup cgroup rw,cpu").map
        MountPoint.OptionalFields = .ok ["shared:1"] ∧
    (NewMountPointFromLine "1 0 252:0 / / rw,noatime - ext4 /dev/dm-0 rw,errors=remount-ro,data=ordered").map
        MountPoint.OptionalFields = .ok [] :=
  ⟨(C9_parse_optional_fields_shape
      "31 23 0:24 /docker /sys/fs/cgroup/cpu rw,nosuid,nodev,noexec,relatime shared:1 - cgroup cgroup rw,cpu"
      rfl (by decide) (by decide) (by decide) (by decide) (by decide)).1,
   (C9_parse_optional_fields_shape
      "1 0 252:0 / / rw,noatime - ext4 /dev/dm-0 rw,errors=remount-ro,data=ordered"
      rfl (by decide) (by decide) (by decide) (by decide) (by decide)).1⟩

/-- C4: whenever parsing succeeds, SuperOptions is exactly the comma-split
of the verbatim super-options remainder: joining the entries back with
commas reproduces the remainder character for character (so spaces,
semicolons and colons inside a value are preserved, never split on), and no
entry contains a comma. -/
theorem C4_parse_superoptions_verbatim (line : String) (mp : MountPoint)
    (h : NewMountPointFromLine line = .ok mp) :
    strIntercalate ',' (mp.SuperOptions.map String.data) = superRaw line ∧
    ∀ o ∈ mp.SuperOptions, ',' ∉ o.data := by
  unfold NewMountPointFromLine at h
  split_ifs at h
  simp only [Except.ok.injEq] at h
  subst h
  constructor
  · show strIntercalate ','
      (((strSplitOn ',' (superRaw line)).map String.mk).map String.data)
      = superRaw line
    rw [List.map_map]
    have hid : (String.data ∘ String.mk) = id := rfl
    rw [hid, List.map_id]
    exact strIntercalate_strSplitOn ',' (superRaw line)
  · intro o ho
    rw [List.mem_map] at ho
    obtain ⟨x, hx, rfl⟩ := ho
    exact sep_not_mem_strSplitOn ',' (superRaw line) x hx

/-- Concrete record for the C4 witness: the WSL mount of the tests, whose
third super option legitimately contains spaces and semicolons. -/
def wslMount : MountPoint :=
  { MountID := 560
    ParentID := 77
    DeviceID := "0:138"
    Root := "/"
    MountPoint := "/Docker/host"
    Options := ["rw", "noatime"]
    OptionalFields := []
    FSType := "9p"
    MountSource := "drvfs"
    SuperOptions :=
      ["rw", "dirsync",
       "aname=drvfs;path=C:\\Program Files\\Docker\\Docker\\resources;symlinkroot=/mnt/",
       "mmap", "access=client", "msize=262144", "trans=virtio"] }

/-- Witness for C4 at the WSL line of the tests: the option value holding
spaces and semicolons survives as one element and the comma-join restores
the raw remainder verbatim. -/
theorem C4_witness :
    strIntercalate ',' (wslMount.SuperOptions.map String.data) =
      superRaw "560 77 0:138 / /Docker/host rw,noatime - 9p drvfs rw,dirsync,aname=drvfs;path=C:\\Program Files\\Docker\\Docker\\resources;symlinkroot=/mnt/,mmap,access=client,msize=262144,trans=virtio" ∧
    wslMount.SuperOptions.getD 2 "" =
      "aname=drvfs;path=C:\\Program Files\\Docker\\Docker\\resources;symlinkroot=/mnt/" :=
  ⟨(C4_parse_superoptions_verbatim
      "560 77 0:138 / /Docker/host rw,noatime - 9p drvfs rw,dirsync,aname=drvfs;path=C:\\Program Files\\Docker\\Docker\\resources;symlinkroot=/mnt/,mmap,access=client,msize=262144,trans=virtio"
      wslMount rfl).1,
   rfl⟩
